import Mathlib

/-!
Verification of the authentication core and OData layer of the
sap-cloud-alm-odata-mcp server.

The definitions below are a shallow embedding of the Rust sources:
`src/odata.rs` (query builder, response handling, error normalization),
`src/auth.rs` (OAuth2 token cache), `src/config.rs` and `src/error.rs`
(configuration and error types).  Machine integers are modelled as `Nat`
or `Int`, wall-clock instants as `Int` seconds, HTTP status codes as
`Nat`, and effectful steps (network calls, the shared token cache) as
explicit state passing.  JSON parsing performed by the serde_json
library is modelled by an executable JSON parser and per-type decoders
mirroring the derived `Deserialize` instances.
-/

/-! ### UTF-8 and percent-encoding

`urlencoding::encode` percent-encodes every byte of the UTF-8
representation except ASCII alphanumerics and `-`, `.`, `_`, `~`,
using uppercase hex digits. -/

/-- UTF-8 bytes of a single character (standard encoding of the scalar value). -/
def utf8BytesOfChar (c : Char) : List Nat :=
  let n := c.toNat
  if n < 0x80 then [n]
  else if n < 0x800 then [0xC0 + n / 64, 0x80 + n % 64]
  else if n < 0x10000 then
    [0xE0 + n / 4096, 0x80 + (n / 64) % 64, 0x80 + n % 64]
  else
    [0xF0 + n / 262144, 0x80 + (n / 4096) % 64, 0x80 + (n / 64) % 64, 0x80 + n % 64]

/-- UTF-8 byte sequence of a string (`str::as_bytes` in Rust). -/
def utf8Bytes (s : String) : List Nat :=
  (s.data.map utf8BytesOfChar).flatten

/-- Bytes left unencoded by `urlencoding::encode`: ASCII alphanumerics and `-._~`. -/
def isUnreservedByte (b : Nat) : Bool :=
  (0x30 ≤ b && b ≤ 0x39) || (0x41 ≤ b && b ≤ 0x5A) || (0x61 ≤ b && b ≤ 0x7A) ||
    b == 45 || b == 46 || b == 95 || b == 126

/-- Uppercase hex digit for a value below 16. -/
def hexUpper (n : Nat) : Char :=
  if n < 10 then Char.ofNat (48 + n) else Char.ofNat (55 + n)

/-- Percent-encoding of one byte. -/
def encodeByte (b : Nat) : List Char :=
  if isUnreservedByte b then [Char.ofNat b]
  else [Char.ofNat 37, hexUpper (b / 16), hexUpper (b % 16)]

/-- Model of `urlencoding::encode`. -/
def urlencoding_encode (s : String) : String :=
  String.mk ((utf8Bytes s).map encodeByte).flatten

/-! ### OData query builder (`src/odata.rs`, `ODataQuery`) -/

/-- Sort order for the dollar-orderby facet (`SortOrder` in `src/odata.rs`). -/
inductive SortOrder
  | Asc
  | Desc
deriving DecidableEq, Repr

/-- Rendering of a sort direction inside `to_query_string`. -/
def SortOrder.render : SortOrder → String
  | .Asc => "asc"
  | .Desc => "desc"

/-- The OData query builder state (`ODataQuery` in `src/odata.rs`).
Field defaults give `Default::default()`, i.e. `ODataQuery::new()`. -/
structure ODataQuery where
  filter : Option String := none
  select : Option (List String) := none
  expand : Option (List String) := none
  orderby : Option (List (String × SortOrder)) := none
  top : Option Nat := none
  skip : Option Nat := none
  count : Bool := false
  search : Option String := none
deriving DecidableEq, Repr

/-- `ODataQuery::new()`. -/
def ODataQuery.new : ODataQuery := {}

/-- Builder method `ODataQuery::filter`. -/
def ODataQuery.addFilter (q : ODataQuery) (f : String) : ODataQuery :=
  { q with filter := some f }

/-- Builder method `ODataQuery::select`. -/
def ODataQuery.addSelect (q : ODataQuery) (fields : List String) : ODataQuery :=
  { q with select := some fields }

/-- Builder method `ODataQuery::expand`. -/
def ODataQuery.addExpand (q : ODataQuery) (relations : List String) : ODataQuery :=
  { q with expand := some relations }

/-- Builder method `ODataQuery::orderby`: appends to the accumulated list
(`get_or_insert_with(Vec::new)` followed by `push`). -/
def ODataQuery.addOrderby (q : ODataQuery) (field : String) (order : SortOrder) : ODataQuery :=
  { q with orderby := some (q.orderby.getD [] ++ [(field, order)]) }

/-- Builder method `ODataQuery::top`. -/
def ODataQuery.addTop (q : ODataQuery) (limit : Nat) : ODataQuery :=
  { q with top := some limit }

/-- Builder method `ODataQuery::skip`. -/
def ODataQuery.addSkip (q : ODataQuery) (offset : Nat) : ODataQuery :=
  { q with skip := some offset }

/-- The parameter list accumulated by `ODataQuery::to_query_string` (the
`params` vector, in push order: filter, select, expand, orderby, top,
skip, count, search). -/
def ODataQuery.to_query_params (q : ODataQuery) : List String :=
  (match q.filter with
    | some f => ["$filter=" ++ urlencoding_encode f]
    | none => []) ++
  (match q.select with
    | some sel => ["$select=" ++ String.intercalate "," sel]
    | none => []) ++
  (match q.expand with
    | some ex => ["$expand=" ++ String.intercalate "," ex]
    | none => []) ++
  (match q.orderby with
    | some ob =>
        ["$orderby=" ++
          String.intercalate "," (ob.map (fun fd => fd.1 ++ " " ++ fd.2.render))]
    | none => []) ++
  (match q.top with
    | some t => ["$top=" ++ toString t]
    | none => []) ++
  (match q.skip with
    | some k => ["$skip=" ++ toString k]
    | none => []) ++
  (if q.count then ["$count=true"] else []) ++
  (match q.search with
    | some s => ["$search=" ++ urlencoding_encode s]
    | none => [])

/-- `ODataQuery::to_query_string`. -/
def ODataQuery.to_query_string (q : ODataQuery) : String :=
  let params := q.to_query_params
  if params.isEmpty then "" else "?" ++ String.intercalate "&" params

/-! ### Builder-call sequences (for the reachability claim) -/

/-- One call to a public builder method of `ODataQuery`. -/
inductive BuilderOp
  | filter (f : String)
  | select (fields : List String)
  | expand (relations : List String)
  | orderby (field : String) (order : SortOrder)
  | top (limit : Nat)
  | skip (offset : Nat)

/-- Apply one builder call. -/
def applyOp (q : ODataQuery) : BuilderOp → ODataQuery
  | .filter f => q.addFilter f
  | .select fields => q.addSelect fields
  | .expand relations => q.addExpand relations
  | .orderby field order => q.addOrderby field order
  | .top limit => q.addTop limit
  | .skip offset => q.addSkip offset

/-- A query built by a sequence of public builder calls starting from `new()`. -/
def buildQuery (ops : List BuilderOp) : ODataQuery :=
  ops.foldl applyOp ODataQuery.new

/-- A single apostrophe, as a string. -/
def apos : String := String.mk [Char.ofNat 39]

lemma applyOp_count (q : ODataQuery) (op : BuilderOp) : (applyOp q op).count = q.count := by
  cases op <;> rfl

lemma foldl_applyOp_count (ops : List BuilderOp) (q : ODataQuery) :
    (ops.foldl applyOp q).count = q.count := by
  induction ops generalizing q with
  | nil => rfl
  | cons op ops ih => rw [List.foldl_cons, ih, applyOp_count]

lemma count_true_ne_filter (x : String) : "$count=true" ≠ "$filter=" ++ x := by
  intro h
  have h2 := congrArg String.data h
  rw [String.data_append] at h2
  simp at h2

lemma count_true_ne_select (x : String) : "$count=true" ≠ "$select=" ++ x := by
  intro h
  have h2 := congrArg String.data h
  rw [String.data_append] at h2
  simp at h2

lemma count_true_ne_expand (x : String) : "$count=true" ≠ "$expand=" ++ x := by
  intro h
  have h2 := congrArg String.data h
  rw [String.data_append] at h2
  simp at h2

lemma count_true_ne_orderby (x : String) : "$count=true" ≠ "$orderby=" ++ x := by
  intro h
  have h2 := congrArg String.data h
  rw [String.data_append] at h2
  simp at h2

lemma count_true_ne_top (x : String) : "$count=true" ≠ "$top=" ++ x := by
  intro h
  have h2 := congrArg String.data h
  rw [String.data_append] at h2
  simp at h2

lemma count_true_ne_skip (x : String) : "$count=true" ≠ "$skip=" ++ x := by
  intro h
  have h2 := congrArg String.data h
  rw [String.data_append] at h2
  simp at h2

lemma count_true_ne_search (x : String) : "$count=true" ≠ "$search=" ++ x := by
  intro h
  have h2 := congrArg String.data h
  rw [String.data_append] at h2
  simp at h2

lemma count_param_not_mem (q : ODataQuery) (h : q.count = false) :
    "$count=true" ∉ q.to_query_params := by
  intro hmem
  unfold ODataQuery.to_query_params at hmem
  cases hf : q.filter <;> cases hs : q.select <;> cases he : q.expand <;>
    cases ho : q.orderby <;> cases ht : q.top <;> cases hk : q.skip <;>
    cases hr : q.search <;>
    simp [hf, hs, he, ho, ht, hk, hr, h, count_true_ne_filter, count_true_ne_select,
      count_true_ne_expand, count_true_ne_orderby, count_true_ne_top,
      count_true_ne_skip, count_true_ne_search] at hmem

/-- C5: serialization is a pure deterministic function of the builder
state (serializing twice yields identical strings), and the query with
zero facets set serializes to the empty string, without a leading
question mark. -/
theorem to_query_string_deterministic_and_empty_on_new :
    (∀ q : ODataQuery, q.to_query_string = q.to_query_string) ∧
      ODataQuery.new.to_query_string = "" :=
  ⟨fun _ => rfl, rfl⟩

/-- C6 counterexample: the query with filter `projectId eq 'abc'`, top 50
and orderby `modifiedAt` descending does NOT serialize to the claimed
string `?$filter=projectId%20eq%20%27abc%27&$orderby=modifiedAt%20desc&$top=50`:
the code does not percent-encode the orderby facet, so the space in
`modifiedAt desc` stays a literal space. -/
theorem c6_query_ne_claimed_encoded_form :
    (((ODataQuery.new.addFilter ("projectId eq " ++ apos ++ "abc" ++ apos)).addTop 50).addOrderby
        "modifiedAt" SortOrder.Desc).to_query_string ≠
      "?$filter=projectId%20eq%20%27abc%27&$orderby=modifiedAt%20desc&$top=50" := by
  decide

/-- C6 (amended): the query with filter `projectId eq 'abc'`, top 50 and
orderby `modifiedAt` descending serializes exactly to
`?$filter=projectId%20eq%20%27abc%27&$orderby=modifiedAt desc&$top=50`
(the orderby facet is emitted without percent-encoding), with the
parameters in the fixed facet order filter, orderby, top regardless of
the order in which the three facets were set (all six call orders give
the same string). -/
theorem c6_query_serialization_all_call_orders :
    (((ODataQuery.new.addFilter ("projectId eq " ++ apos ++ "abc" ++ apos)).addTop 50).addOrderby
        "modifiedAt" SortOrder.Desc).to_query_string =
      "?$filter=projectId%20eq%20%27abc%27&$orderby=modifiedAt desc&$top=50" ∧
    (((ODataQuery.new.addFilter ("projectId eq " ++ apos ++ "abc" ++ apos)).addOrderby
        "modifiedAt" SortOrder.Desc).addTop 50).to_query_string =
      "?$filter=projectId%20eq%20%27abc%27&$orderby=modifiedAt desc&$top=50" ∧
    (((ODataQuery.new.addTop 50).addFilter ("projectId eq " ++ apos ++ "abc" ++ apos)).addOrderby
        "modifiedAt" SortOrder.Desc).to_query_string =
      "?$filter=projectId%20eq%20%27abc%27&$orderby=modifiedAt desc&$top=50" ∧
    (((ODataQuery.new.addTop 50).addOrderby "modifiedAt" SortOrder.Desc).addFilter
        ("projectId eq " ++ apos ++ "abc" ++ apos)).to_query_string =
      "?$filter=projectId%20eq%20%27abc%27&$orderby=modifiedAt desc&$top=50" ∧
    (((ODataQuery.new.addOrderby "modifiedAt" SortOrder.Desc).addFilter
        ("projectId eq " ++ apos ++ "abc" ++ apos)).addTop 50).to_query_string =
      "?$filter=projectId%20eq%20%27abc%27&$orderby=modifiedAt desc&$top=50" ∧
    (((ODataQuery.new.addOrderby "modifiedAt" SortOrder.Desc).addTop 50).addFilter
        ("projectId eq " ++ apos ++ "abc" ++ apos)).to_query_string =
      "?$filter=projectId%20eq%20%27abc%27&$orderby=modifiedAt desc&$top=50" := by
  refine ⟨?_, ?_, ?_, ?_, ?_, ?_⟩ <;> decide

/-- C7: two successive orderby calls accumulate in call order and render
as `field direction` pairs joined by commas: `orderby("status", asc)`
then `orderby("modifiedAt", desc)` serializes to
`?$orderby=status asc,modifiedAt desc`. -/
theorem orderby_accumulates_in_call_order :
    ((ODataQuery.new.addOrderby "status" SortOrder.Asc).addOrderby
        "modifiedAt" SortOrder.Desc).to_query_string =
      "?$orderby=status asc,modifiedAt desc" := by
  decide

/-- C10: the count facet is unreachable through the public builder
interface: `new()` has `count = false`, every sequence of public builder
calls leaves `count = false`, and hence the serialized parameter list
never contains the `$count=true` parameter. -/
theorem count_facet_unreachable :
    ODataQuery.new.count = false ∧
      ∀ ops : List BuilderOp,
        (buildQuery ops).count = false ∧
          "$count=true" ∉ (buildQuery ops).to_query_params := by
  refine ⟨rfl, fun ops => ?_⟩
  have hc : (buildQuery ops).count = false := foldl_applyOp_count ops ODataQuery.new
  exact ⟨hc, count_param_not_mem _ hc⟩

/-! ### JSON values and parsing (model of serde_json)

`serde_json::from_str` is library code; it is modelled here by an
executable recursive-descent parser over the character list, using fuel
for termination.  Numbers record whether the lexeme was an integer
(no fraction, no exponent) together with the integer value of the
integral part; non-integer numeric values are never needed by the
decoders below (an `i64` field rejects them wholesale, as serde does). -/

/-- JSON values. -/
inductive Json
  | null
  | bool (b : Bool)
  | num (isInt : Bool) (val : Int)
  | str (s : String)
  | arr (items : List Json)
  | obj (fields : List (String × Json))
deriving Repr

/-- The double-quote character. -/
def quoteChar : Char := Char.ofNat 34

/-- The backslash character. -/
def backslashChar : Char := Char.ofNat 92

/-- The opening-brace character. -/
def lbraceChar : Char := Char.ofNat 123

/-- The closing-brace character. -/
def rbraceChar : Char := Char.ofNat 125

/-- The opening-bracket character. -/
def lbrackChar : Char := Char.ofNat 91

/-- The closing-bracket character. -/
def rbrackChar : Char := Char.ofNat 93

/-- JSON whitespace. -/
def isJsonWs (c : Char) : Bool :=
  c == Char.ofNat 32 || c == Char.ofNat 9 || c == Char.ofNat 10 || c == Char.ofNat 13

/-- Drop leading JSON whitespace. -/
def skipWs : List Char → List Char
  | [] => []
  | c :: cs => if isJsonWs c then skipWs cs else c :: cs

/-- Numeric value of one hex digit. -/
def hexVal (c : Char) : Option Nat :=
  if 48 ≤ c.toNat && c.toNat ≤ 57 then some (c.toNat - 48)
  else if 65 ≤ c.toNat && c.toNat ≤ 70 then some (c.toNat - 55)
  else if 97 ≤ c.toNat && c.toNat ≤ 102 then some (c.toNat - 87)
  else none

/-- Read exactly four hex digits. -/
def parseHex4 : List Char → Option (Nat × List Char)
  | a :: b :: c :: d :: rest =>
    match hexVal a, hexVal b, hexVal c, hexVal d with
    | some va, some vb, some vc, some vd =>
      some (va * 4096 + vb * 256 + vc * 16 + vd, rest)
    | _, _, _, _ => none
  | _ => none

/-- Decimal digit. -/
def isDigitChar (c : Char) : Bool := 48 ≤ c.toNat && c.toNat ≤ 57

/-- Value of a digit string. -/
def digitsToNat (ds : List Char) : Nat :=
  ds.foldl (fun acc c => acc * 10 + (c.toNat - 48)) 0

/-- Match a literal character sequence. -/
def expectChars : List Char → List Char → Option (List Char)
  | [], cs => some cs
  | l :: ls, c :: cs => if c == l then expectChars ls cs else none
  | _ :: _, [] => none

/-- Parse the body of a JSON string after its opening quote, handling the
JSON escape sequences (including surrogate pairs) and rejecting raw
control characters. -/
def parseStringBody : Nat → List Char → Option (List Char × List Char)
  | 0, _ => none
  | Nat.succ fuel, cs =>
    match cs with
    | [] => none
    | c :: rest =>
      if c == quoteChar then some ([], rest)
      else if c == backslashChar then
        match rest with
        | [] => none
        | e :: rest2 =>
          let decoded : Option (Char × List Char) :=
            if e == quoteChar then some (quoteChar, rest2)
            else if e == backslashChar then some (backslashChar, rest2)
            else if e == Char.ofNat 47 then some (Char.ofNat 47, rest2)
            else if e == Char.ofNat 98 then some (Char.ofNat 8, rest2)
            else if e == Char.ofNat 102 then some (Char.ofNat 12, rest2)
            else if e == Char.ofNat 110 then some (Char.ofNat 10, rest2)
            else if e == Char.ofNat 114 then some (Char.ofNat 13, rest2)
            else if e == Char.ofNat 116 then some (Char.ofNat 9, rest2)
            else if e == Char.ofNat 117 then
              match parseHex4 rest2 with
              | none => none
              | some (v, rest3) =>
                if 0xD800 ≤ v && v ≤ 0xDBFF then
                  match rest3 with
                  | b1 :: u1 :: rest4 =>
                    if b1 == backslashChar && u1 == Char.ofNat 117 then
                      match parseHex4 rest4 with
                      | some (lo, rest5) =>
                        if 0xDC00 ≤ lo && lo ≤ 0xDFFF then
                          some (Char.ofNat (0x10000 + (v - 0xD800) * 1024 + (lo - 0xDC00)), rest5)
                        else none
                      | none => none
                    else none
                  | _ => none
                else if 0xDC00 ≤ v && v ≤ 0xDFFF then none
                else some (Char.ofNat v, rest3)
            else none
          match decoded with
          | some (ch, r) =>
            match parseStringBody fuel r with
            | some (content, r2) => some (ch :: content, r2)
            | none => none
          | none => none
      else if c.toNat < 0x20 then none
      else
        match parseStringBody fuel rest with
        | some (content, r2) => some (c :: content, r2)
        | none => none

/-- Parse a JSON number (sign, integral part with the no-leading-zero
rule, optional fraction and exponent). -/
def parseNumber (cs : List Char) : Option (Json × List Char) :=
  let negPair : Bool × List Char :=
    match cs with
    | c :: rest => if c == Char.ofNat 45 then (true, rest) else (false, cs)
    | [] => (false, [])
  let neg := negPair.1
  let ip := negPair.2.span isDigitChar
  let intDigits := ip.1
  if intDigits.isEmpty then none
  else if 1 < intDigits.length && intDigits.headD quoteChar == Char.ofNat 48 then none
  else
    let fracRes : Option (Bool × List Char) :=
      match ip.2 with
      | c :: rest =>
        if c == Char.ofNat 46 then
          let fp := rest.span isDigitChar
          if fp.1.isEmpty then none else some (true, fp.2)
        else some (false, ip.2)
      | [] => some (false, [])
    match fracRes with
    | none => none
    | some (hasFrac, cs3) =>
      let expRes : Option (Bool × List Char) :=
        match cs3 with
        | c :: rest =>
          if c == Char.ofNat 101 || c == Char.ofNat 69 then
            let rest2 :=
              match rest with
              | d :: r2 => if d == Char.ofNat 43 || d == Char.ofNat 45 then r2 else rest
              | [] => []
            let ep := rest2.span isDigitChar
            if ep.1.isEmpty then none else some (true, ep.2)
          else some (false, cs3)
        | [] => some (false, [])
      match expRes with
      | none => none
      | some (hasExp, cs4) =>
        let v : Int :=
          if neg then -(Int.ofNat (digitsToNat intDigits)) else Int.ofNat (digitsToNat intDigits)
        some (.num (!hasFrac && !hasExp) v, cs4)

mutual

/-- Parse one JSON value. -/
def parseValue : Nat → List Char → Option (Json × List Char)
  | 0, _ => none
  | Nat.succ fuel, cs =>
    match skipWs cs with
    | [] => none
    | c :: rest =>
      if c == quoteChar then
        match parseStringBody (Nat.succ fuel) rest with
        | some (content, r) => some (.str (String.mk content), r)
        | none => none
      else if c == lbraceChar then parseObjBody fuel (skipWs rest)
      else if c == lbrackChar then parseArrBody fuel (skipWs rest)
      else if c == Char.ofNat 116 then
        match expectChars [Char.ofNat 114, Char.ofNat 117, Char.ofNat 101] rest with
        | some r => some (.bool true, r)
        | none => none
      else if c == Char.ofNat 102 then
        match expectChars [Char.ofNat 97, Char.ofNat 108, Char.ofNat 115, Char.ofNat 101] rest with
        | some r => some (.bool false, r)
        | none => none
      else if c == Char.ofNat 110 then
        match expectChars [Char.ofNat 117, Char.ofNat 108, Char.ofNat 108] rest with
        | some r => some (.null, r)
        | none => none
      else if c == Char.ofNat 45 || isDigitChar c then parseNumber (c :: rest)
      else none

/-- Parse an object after its opening brace (whitespace skipped). -/
def parseObjBody : Nat → List Char → Option (Json × List Char)
  | 0, _ => none
  | Nat.succ fuel, cs =>
    match cs with
    | [] => none
    | c :: rest =>
      if c == rbraceChar then some (.obj [], rest)
      else parseMembers fuel cs []

/-- Parse the members of a non-empty object. -/
def parseMembers : Nat → List Char → List (String × Json) → Option (Json × List Char)
  | 0, _, _ => none
  | Nat.succ fuel, cs, acc =>
    match skipWs cs with
    | [] => none
    | c :: rest =>
      if c == quoteChar then
        match parseStringBody (Nat.succ fuel) rest with
        | some (key, r1) =>
          match skipWs r1 with
          | colon :: r2 =>
            if colon == Char.ofNat 58 then
              match parseValue fuel r2 with
              | some (v, r3) =>
                match skipWs r3 with
                | [] => none
                | d :: r4 =>
                  if d == Char.ofNat 44 then
                    parseMembers fuel r4 (acc ++ [(String.mk key, v)])
                  else if d == rbraceChar then
                    some (.obj (acc ++ [(String.mk key, v)]), r4)
                  else none
              | none => none
            else none
          | [] => none
        | none => none
      else none

/-- Parse an array after its opening bracket (whitespace skipped). -/
def parseArrBody : Nat → List Char → Option (Json × List Char)
  | 0, _ => none
  | Nat.succ fuel, cs =>
    match cs with
    | [] => none
    | c :: rest =>
      if c == rbrackChar then some (.arr [], rest)
      else parseItems fuel cs []

/-- Parse the items of a non-empty array. -/
def parseItems : Nat → List Char → List Json → Option (Json × List Char)
  | 0, _, _ => none
  | Nat.succ fuel, cs, acc =>
    match parseValue fuel cs with
    | some (v, r1) =>
      match skipWs r1 with
      | [] => none
      | d :: r2 =>
        if d == Char.ofNat 44 then parseItems fuel r2 (acc ++ [v])
        else if d == rbrackChar then some (.arr (acc ++ [v]), r2)
        else none
    | none => none

end

/-- Model of `serde_json::from_str` up to the generic JSON value: parse
one value and require that only whitespace remains. -/
def parseJsonStr (s : String) : Option Json :=
  match parseValue (4 * s.data.length + 16) s.data with
  | some (j, rest) => if (skipWs rest).isEmpty then some j else none
  | none => none

/-! ### Typed decoders (derived `Deserialize` instances)

The derived serde instances ignore unknown fields, treat `Option`
fields as `None` when missing or null, and apply `#[serde(default)]`
when a field is absent.  Field lookup takes the first occurrence of a
name. -/

/-- Look up a field of a JSON object (first occurrence). -/
def getField : List (String × Json) → String → Option Json
  | [], _ => none
  | f :: fs, name => if f.1 == name then some f.2 else getField fs name

/-- Decode a required string field. -/
def decodeStringField (fields : List (String × Json)) (name : String) : Option String :=
  match getField fields name with
  | some (.str s) => some s
  | _ => none

/-- Decode an `Option<String>` field: missing or null gives `None`. -/
def decodeOptStringField (fields : List (String × Json)) (name : String) :
    Option (Option String) :=
  match getField fields name with
  | none => some none
  | some .null => some none
  | some (.str s) => some (some s)
  | some _ => none

/-- Decode an `i64` value: an integer lexeme within the `i64` range. -/
def decodeI64 : Json → Option Int
  | .num isInt v =>
    if isInt && decide (-(2 ^ 63 : Int) ≤ v) && decide (v ≤ (2 ^ 63 - 1 : Int)) then some v
    else none
  | _ => none

/-- `ODataErrorItem` from `src/odata.rs`. -/
structure ODataErrorItem where
  code : Option String
  message : String
  target : Option String
deriving Repr, DecidableEq

/-- `ODataErrorDetail` from `src/odata.rs` (`details` has `#[serde(default)]`). -/
structure ODataErrorDetail where
  code : String
  message : String
  details : List ODataErrorItem
deriving Repr, DecidableEq

/-- `ODataErrorResponse` from `src/odata.rs`. -/
structure ODataErrorResponse where
  error : ODataErrorDetail
deriving Repr, DecidableEq

/-- Decode one entry of the `details` array. -/
def decodeErrorItem (j : Json) : Option ODataErrorItem :=
  match j with
  | .obj fs =>
    match decodeOptStringField fs "code", decodeStringField fs "message",
        decodeOptStringField fs "target" with
    | some c, some m, some t => some ⟨c, m, t⟩
    | _, _, _ => none
  | _ => none

/-- Decode `ODataErrorDetail`. -/
def decodeErrorDetail (j : Json) : Option ODataErrorDetail :=
  match j with
  | .obj fs =>
    match decodeStringField fs "code", decodeStringField fs "message" with
    | some c, some m =>
      match getField fs "details" with
      | none => some ⟨c, m, []⟩
      | some (.arr items) =>
        match items.mapM decodeErrorItem with
        | some ds => some ⟨c, m, ds⟩
        | none => none
      | some _ => none
    | _, _ => none
  | _ => none

/-- Decode `ODataErrorResponse`. -/
def decodeODataErrorResponse (j : Json) : Option ODataErrorResponse :=
  match j with
  | .obj fs =>
    match getField fs "error" with
    | some je => (decodeErrorDetail je).map (fun d => ⟨d⟩)
    | none => none
  | _ => none

/-- Model of `serde_json::from_str::<ODataErrorResponse>`. -/
def from_str_ODataErrorResponse (body : String) : Option ODataErrorResponse :=
  (parseJsonStr body).bind decodeODataErrorResponse

/-- `TokenResponse` from `src/auth.rs` (`scope` has `#[serde(default)]`). -/
structure TokenResponse where
  access_token : String
  token_type : String
  expires_in : Int
  scope : String
deriving Repr, DecidableEq

/-- Decode `TokenResponse`. -/
def decodeTokenResponse (j : Json) : Option TokenResponse :=
  match j with
  | .obj fs =>
    match decodeStringField fs "access_token", decodeStringField fs "token_type",
        (getField fs "expires_in").bind decodeI64 with
    | some tok, some tt, some ei =>
      match
        (match getField fs "scope" with
          | none => some ""
          | some (.str s) => some s
          | some _ => none) with
      | some sc => some ⟨tok, tt, ei, sc⟩
      | none => none
    | _, _, _ => none
  | _ => none

/-- Model of `response.json::<TokenResponse>()` on a body string. -/
def parseTokenResponse (body : String) : Option TokenResponse :=
  (parseJsonStr body).bind decodeTokenResponse

/-! ### Error types (`src/error.rs`) -/

/-- `AuthError` from `src/error.rs` (transport errors collapsed to one
constructor, since their payload is opaque library data). -/
inductive AuthError
  | Request
  | TokenRequestFailed (status : Nat) (body : String)
  | TokenParse (msg : String)
  | NoToken
  | HttpClientInit (msg : String)
deriving Repr, DecidableEq

/-- `ApiError` from `src/error.rs`. -/
inductive ApiError
  | Auth (e : AuthError)
  | Request
  | HttpError (status : Nat) (body : String)
  | ODataError (status : Nat) (code : String) (message : String)
  | JsonParse (msg : String)
  | HttpClientInit (msg : String)
deriving Repr, DecidableEq

/-- `StatusCode::is_success`: 2xx. -/
def isSuccessStatus (status : Nat) : Bool := 200 ≤ status && status < 300

/-! ### Error normalization (`ODataClient::parse_error_response`) -/

/-- `ODataClient::parse_error_response`: try the structured OData error
envelope first, fall back to a generic HTTP error carrying the raw
body.  Generic in the success type `T`, as in the source. -/
def parse_error_response (T : Type) (status : Nat) (body : String) : Except ApiError T :=
  match from_str_ODataErrorResponse body with
  | some er => .error (.ODataError status er.error.code er.error.message)
  | none => .error (.HttpError status body)

/-! ### Response handling (`ODataClient::handle_response`)

Rust side effects that can panic are modelled with `Option`: a `none`
result is a panic.  `&body[..n]` panics when `n` is not a character
boundary of the UTF-8 representation. -/

/-- Rust `str::is_char_boundary` on the UTF-8 bytes. -/
def isCharBoundary (s : String) (n : Nat) : Bool :=
  let bs := utf8Bytes s
  n == 0 || n == bs.length ||
    (match bs.get? n with
      | some b => !(0x80 ≤ b && b < 0xC0)
      | none => false)

/-- The characters of `s` whose UTF-8 bytes fit entirely within the
first `n` bytes. -/
def takeUtf8Bytes : List Char → Nat → List Char
  | [], _ => []
  | c :: cs, n =>
    let k := (utf8BytesOfChar c).length
    if k ≤ n then c :: takeUtf8Bytes cs (n - k) else []

/-- Rust `&s[..n]`: the byte-prefix slice, panicking (`none`) when `n`
is not a character boundary. -/
def rustSliceTo (s : String) (n : Nat) : Option String :=
  if isCharBoundary s n then some (String.mk (takeUtf8Bytes s.data n)) else none

/-- `ODataClient::handle_response`, with the typed deserialization
step (`serde_json::from_str::<T>`) passed as `decode` (it is selected
by the type parameter in the source) and the body text of the response
given as `body`.  The outer `Option` models panics: the debug-mode
truncation slices at byte 500 and the parse-error message slices at
byte `min(len, 200)`, each of which can hit a non-boundary index. -/
def handle_response (T : Type) (debug : Bool) (decode : String → Except String T)
    (status : Nat) (body : String) : Option (Except ApiError T) :=
  if isSuccessStatus status then
    let debugOk : Bool :=
      !debug || (utf8Bytes body).length ≤ 500 || isCharBoundary body 500
    if !debugOk then none
    else
      match decode body with
      | .ok v => some (.ok v)
      | .error e =>
        match rustSliceTo body (min (utf8Bytes body).length 200) with
        | some pre =>
          some (.error (.JsonParse
            ("Failed to parse response: " ++ e ++ " - Body: " ++ pre)))
        | none => none
  else some (parse_error_response T status body)

/-! ### Configuration (`src/config.rs`)

`tenant` and `region` are `Option<String>` in the source and unwrapped
with `expect` after `validate()` has run; they are modelled as plain
strings of a validated configuration, which the claims never exercise
in the absent state. -/

/-- `Config` from `src/config.rs`. -/
structure Config where
  sandbox : Bool
  api_key : Option String
  tenant : String
  region : String
  client_id : Option String
  client_secret : Option String
  debug : Bool
  timeout_seconds : Nat
  token_refresh_buffer_seconds : Nat
deriving Repr, DecidableEq

/-- `Config::token_buffer` (chrono seconds, as `Int`). -/
def Config.token_buffer (c : Config) : Int := Int.ofNat c.token_refresh_buffer_seconds

/-- `Config::token_url`: `None` in sandbox mode. -/
def Config.token_url (c : Config) : Option String :=
  if c.sandbox then none
  else
    some ("https://" ++ c.tenant ++ ".authentication." ++ c.region ++
      ".hana.ondemand.com/oauth/token")

/-! ### OAuth2 client (`src/auth.rs`)

Wall-clock time is an explicit `Int` of seconds; the shared token cache
is explicit state (`Option CachedToken`); the network interaction of a
token fetch is an oracle value `HttpOutcome`. -/

/-- `CachedToken` from `src/auth.rs`. -/
structure CachedToken where
  access_token : String
  expires_at : Int
deriving Repr, DecidableEq

/-- `CachedToken::is_expired`: `Utc::now() + buffer >= self.expires_at`,
with the current instant passed explicitly. -/
def CachedToken.is_expired (t : CachedToken) (now buffer : Int) : Bool :=
  decide (now + buffer ≥ t.expires_at)

/-- Outcome of the HTTP POST to the token endpoint. -/
inductive HttpOutcome
  | transport
  | response (status : Nat) (body : String)
deriving Repr, DecidableEq

/-- `OAuth2Client::fetch_token`: returns the result together with the
new cache state.  The cache is written only in the fully successful
branch, where `expires_at = now + expires_in`. -/
def fetch_token (config : Config) (now : Int) (outcome : HttpOutcome)
    (cache : Option CachedToken) : Except AuthError String × Option CachedToken :=
  match config.token_url with
  | none => (.error (.TokenParse "No token URL in sandbox mode"), cache)
  | some _ =>
    match config.client_id with
    | none => (.error (.TokenParse "Missing client_id"), cache)
    | some _ =>
      match config.client_secret with
      | none => (.error (.TokenParse "Missing client_secret"), cache)
      | some _ =>
        match outcome with
        | .transport => (.error .Request, cache)
        | .response status body =>
          if !isSuccessStatus status then
            (.error (.TokenRequestFailed status body), cache)
          else
            match parseTokenResponse body with
            | none => (.error (.TokenParse "Failed to parse token response"), cache)
            | some tr => (.ok tr.access_token, some ⟨tr.access_token, now + tr.expires_in⟩)

/-- Observable outcome of one `OAuth2Client::get_token` call: the
returned value, the cache state after the call, and whether
`fetch_token` was invoked. -/
structure GetTokenResult where
  result : Except AuthError String
  cache : Option CachedToken
  fetchCalled : Bool
deriving Repr

/-- `OAuth2Client::get_token`: sandbox mode returns the static key
without touching the cache; otherwise a cache hit requires the cached
token to be unexpired under the refresh buffer, and any other state
delegates to `fetch_token`. -/
def get_token (config : Config) (now : Int) (outcome : HttpOutcome)
    (cache : Option CachedToken) : GetTokenResult :=
  if config.sandbox then
    { result :=
        match config.api_key with
        | some k => .ok k
        | none => .error .NoToken
      cache := cache
      fetchCalled := false }
  else
    match cache with
    | some cached =>
      if !cached.is_expired now config.token_buffer then
        { result := .ok cached.access_token, cache := some cached, fetchCalled := false }
      else
        { result := (fetch_token config now outcome (some cached)).1
          cache := (fetch_token config now outcome (some cached)).2
          fetchCalled := true }
    | none =>
      { result := (fetch_token config now outcome none).1
        cache := (fetch_token config now outcome none).2
        fetchCalled := true }

/-- An OAuth2-mode configuration used as concrete input. -/
def cfgOAuth : Config :=
  { sandbox := false, api_key := none, tenant := "mycompany", region := "eu10",
    client_id := some "test-client", client_secret := some "test-secret",
    debug := false, timeout_seconds := 30, token_refresh_buffer_seconds := 5 }

/-- A sandbox-mode configuration used as concrete input. -/
def cfgSandbox : Config :=
  { sandbox := true, api_key := some "test-api-key", tenant := "", region := "",
    client_id := none, client_secret := none,
    debug := false, timeout_seconds := 30, token_refresh_buffer_seconds := 5 }

/-- A well-formed token-endpoint response body. -/
def tokenBody : String :=
  "\x7b\"access_token\":\"tok\",\"token_type\":\"bearer\",\"expires_in\":3600\x7d"

lemma get_token_not_sandbox_some (config : Config) (now : Int) (outcome : HttpOutcome)
    (c : CachedToken) (h : config.sandbox = false) :
    get_token config now outcome (some c) =
      if now + config.token_buffer < c.expires_at then
        { result := .ok c.access_token, cache := some c, fetchCalled := false }
      else
        { result := (fetch_token config now outcome (some c)).1
          cache := (fetch_token config now outcome (some c)).2
          fetchCalled := true } := by
  unfold get_token
  rw [h]
  by_cases hexp : now + config.token_buffer < c.expires_at
  · rw [if_pos hexp]
    have : c.is_expired now config.token_buffer = false := by
      simp [CachedToken.is_expired]
      omega
    simp [this]
  · rw [if_neg hexp]
    have : c.is_expired now config.token_buffer = true := by
      simp [CachedToken.is_expired]
      omega
    simp [this]

/-- C1: in token (non-sandbox) mode, `get_token` returns the cached
access token without calling `fetch_token` exactly when
`now + refresh_buffer < expires_at`; when the cache is empty, or when
`now + refresh_buffer >= expires_at`, it instead performs a fresh fetch
and returns the fetch result. -/
theorem get_token_cache_hit_iff (config : Config) (now : Int) (outcome : HttpOutcome)
    (cache : Option CachedToken) (h : config.sandbox = false) :
    (∀ c, cache = some c →
      (((get_token config now outcome cache).fetchCalled = false ∧
          (get_token config now outcome cache).result = .ok c.access_token) ↔
        now + config.token_buffer < c.expires_at)) ∧
    (cache = none →
      (get_token config now outcome cache).fetchCalled = true ∧
      (get_token config now outcome cache).result = (fetch_token config now outcome cache).1) ∧
    (∀ c, cache = some c → now + config.token_buffer ≥ c.expires_at →
      (get_token config now outcome cache).fetchCalled = true ∧
      (get_token config now outcome cache).result = (fetch_token config now outcome cache).1 ∧
      (get_token config now outcome cache).cache = (fetch_token config now outcome cache).2) := by
  refine ⟨?_, ?_, ?_⟩
  · rintro c rfl
    rw [get_token_not_sandbox_some config now outcome c h]
    by_cases hexp : now + config.token_buffer < c.expires_at
    · simp [hexp]
    · simp [hexp]
  · rintro rfl
    unfold get_token
    rw [h]
    simp
  · rintro c rfl hge
    rw [get_token_not_sandbox_some config now outcome c h, if_neg (by omega)]
    exact ⟨rfl, rfl, rfl⟩

/-- C1 witness: with a 5-second buffer, a token expiring at 2000 is a
cache hit at 1000 (no fetch) and a fetch at 1996. -/
theorem get_token_cache_hit_iff_witness :
    ((get_token cfgOAuth 1000 .transport (some ⟨"tok", 2000⟩)).fetchCalled = false ∧
      (get_token cfgOAuth 1000 .transport (some ⟨"tok", 2000⟩)).result = .ok "tok") ∧
    (get_token cfgOAuth 1996 .transport (some ⟨"tok", 2000⟩)).fetchCalled = true :=
  ⟨((get_token_cache_hit_iff cfgOAuth 1000 .transport (some ⟨"tok", 2000⟩) rfl).1
      ⟨"tok", 2000⟩ rfl).mpr (by decide),
    (((get_token_cache_hit_iff cfgOAuth 1996 .transport (some ⟨"tok", 2000⟩) rfl).2.2
      ⟨"tok", 2000⟩ rfl) (by decide)).1⟩

/-- C2: in sandbox (static-key) mode, `get_token` never calls
`fetch_token` and leaves the cache untouched; it returns the configured
key exactly when present and fails with `AuthError::NoToken` when
absent. -/
theorem get_token_sandbox_static_key (config : Config) (now : Int) (outcome : HttpOutcome)
    (cache : Option CachedToken) (h : config.sandbox = true) :
    (get_token config now outcome cache).fetchCalled = false ∧
    (get_token config now outcome cache).cache = cache ∧
    (∀ k, config.api_key = some k → (get_token config now outcome cache).result = .ok k) ∧
    (config.api_key = none → (get_token config now outcome cache).result = .error .NoToken) := by
  unfold get_token
  rw [h]
  refine ⟨rfl, rfl, ?_, ?_⟩
  · intro k hk
    simp [hk]
  · intro hk
    simp [hk]

/-- C2 witness: the sandbox configuration returns its key with no fetch
and an unchanged cache. -/
theorem get_token_sandbox_static_key_witness :
    (get_token cfgSandbox 0 .transport none).fetchCalled = false ∧
    (get_token cfgSandbox 0 .transport none).cache = none ∧
    (get_token cfgSandbox 0 .transport none).result = .ok "test-api-key" :=
  ⟨(get_token_sandbox_static_key cfgSandbox 0 .transport none rfl).1,
    (get_token_sandbox_static_key cfgSandbox 0 .transport none rfl).2.1,
    (get_token_sandbox_static_key cfgSandbox 0 .transport none rfl).2.2.1 "test-api-key" rfl⟩

/-- C3: a successful token-exchange response whose body parses as
`{access_token, expires_in, ...}` makes `fetch_token` compute
`expires_at = now + expires_in`, replace the cached credential
wholesale with the new one, and return exactly that access token. -/
theorem fetch_token_success_replaces_cache (config : Config) (now : Int) (status : Nat)
    (body : String) (cache : Option CachedToken) (tr : TokenResponse)
    (hs : config.sandbox = false) (hid : config.client_id.isSome = true)
    (hsec : config.client_secret.isSome = true) (hst : isSuccessStatus status = true)
    (hp : parseTokenResponse body = some tr) :
    fetch_token config now (.response status body) cache =
      (.ok tr.access_token, some ⟨tr.access_token, now + tr.expires_in⟩) := by
  obtain ⟨cid, hcid⟩ := Option.isSome_iff_exists.mp hid
  obtain ⟨csec, hcsec⟩ := Option.isSome_iff_exists.mp hsec
  unfold fetch_token Config.token_url
  rw [hs, hcid, hcsec]
  simp [hst, hp]

/-- C3 witness: a 200 response with a 3600-second lifetime at time 1000
caches `{access_token := "tok", expires_at := 4600}` and returns
`"tok"`, overwriting a previously cached credential. -/
theorem fetch_token_success_replaces_cache_witness :
    fetch_token cfgOAuth 1000 (.response 200 tokenBody) (some ⟨"old", 1⟩) =
      (.ok "tok", some ⟨"tok", 1000 + 3600⟩) :=
  fetch_token_success_replaces_cache cfgOAuth 1000 200 tokenBody (some ⟨"old", 1⟩)
    ⟨"tok", "bearer", 3600, ""⟩ rfl rfl rfl (by decide) (by decide)

/-- C4: every failing `fetch_token` call leaves the cache exactly as it
was; a non-success status from the token endpoint yields
`TokenRequestFailed` carrying that status and the raw body, and a
malformed token-response body yields a `TokenParse` error, in both
cases with the cache preserved. -/
theorem fetch_token_failure_preserves_cache (config : Config) (now : Int)
    (outcome : HttpOutcome) (cache : Option CachedToken) :
    (∀ e, (fetch_token config now outcome cache).1 = .error e →
      (fetch_token config now outcome cache).2 = cache) ∧
    (∀ status body, outcome = .response status body → config.sandbox = false →
      config.client_id.isSome = true → config.client_secret.isSome = true →
      isSuccessStatus status = false →
      fetch_token config now outcome cache =
        (.error (.TokenRequestFailed status body), cache)) ∧
    (∀ status body, outcome = .response status body → config.sandbox = false →
      config.client_id.isSome = true → config.client_secret.isSome = true →
      isSuccessStatus status = true → parseTokenResponse body = none →
      ∃ m, fetch_token config now outcome cache = (.error (.TokenParse m), cache)) := by
  refine ⟨?_, ?_, ?_⟩
  · intro e
    unfold fetch_token
    cases config.token_url with
    | none => intro _; rfl
    | some url =>
      cases config.client_id with
      | none => intro _; rfl
      | some cid =>
        cases config.client_secret with
        | none => intro _; rfl
        | some csec =>
          cases outcome with
          | transport => intro _; rfl
          | response status body =>
            by_cases hst : isSuccessStatus status
            · simp only [hst, Bool.not_true, Bool.false_eq_true, if_false]
              cases parseTokenResponse body with
              | none => intro _; rfl
              | some tr =>
                intro he
                simp at he
            · simp [hst]
  · rintro status body rfl hs hid hsec hst
    obtain ⟨cid, hcid⟩ := Option.isSome_iff_exists.mp hid
    obtain ⟨csec, hcsec⟩ := Option.isSome_iff_exists.mp hsec
    unfold fetch_token Config.token_url
    rw [hs, hcid, hcsec]
    simp [hst]
  · rintro status body rfl hs hid hsec hst hp
    obtain ⟨cid, hcid⟩ := Option.isSome_iff_exists.mp hid
    obtain ⟨csec, hcsec⟩ := Option.isSome_iff_exists.mp hsec
    refine ⟨"Failed to parse token response", ?_⟩
    unfold fetch_token Config.token_url
    rw [hs, hcid, hcsec]
    simp [hst, hp]

/-- C4 witness: a 500 response with body `oops` fails with
`TokenRequestFailed 500 "oops"` and leaves the (empty) cache empty. -/
theorem fetch_token_failure_preserves_cache_witness :
    fetch_token cfgOAuth 0 (.response 500 "oops") none =
      (.error (.TokenRequestFailed 500 "oops"), none) :=
  (fetch_token_failure_preserves_cache cfgOAuth 0 (.response 500 "oops") none).2.1
    500 "oops" rfl rfl rfl rfl (by decide)

/-- Valid JSON whose shape does not match the error envelope. -/
def bodyMsgOops : String := "\x7b\"msg\": \"oops\"\x7d"

/-- A structured OData error envelope body. -/
def bodyEnvelope404 : String :=
  "\x7b\"error\": \x7b\"code\": \"404\", \"message\": \"Resource not found\"\x7d\x7d"

/-- C8: the error normalizer is total over status and body and always
produces an error: a body parsing as the structured envelope yields
`ODataError` with the status and the envelope's code and message, and
any other body yields `HttpError` carrying the status and the raw body
unchanged. -/
theorem parse_error_response_total_and_classified (T : Type) (status : Nat) (body : String)
    (_hns : isSuccessStatus status = false) :
    (∃ e, parse_error_response T status body = .error e) ∧
    (∀ er, from_str_ODataErrorResponse body = some er →
      parse_error_response T status body =
        .error (.ODataError status er.error.code er.error.message)) ∧
    (from_str_ODataErrorResponse body = none →
      parse_error_response T status body = .error (.HttpError status body)) := by
  refine ⟨?_, ?_, ?_⟩
  · cases hp : from_str_ODataErrorResponse body with
    | none => exact ⟨.HttpError status body, by simp [parse_error_response, hp]⟩
    | some er =>
      exact ⟨.ODataError status er.error.code er.error.message,
        by simp [parse_error_response, hp]⟩
  · intro er hp
    simp [parse_error_response, hp]
  · intro hp
    simp [parse_error_response, hp]

/-- C8 witness: for a 404 status, the non-envelope JSON body
`{"msg": "oops"}` falls back to `HttpError` with the body preserved,
and a structured envelope body yields the `ODataError` with its code
and message. -/
theorem parse_error_response_witness :
    parse_error_response Unit 404 bodyMsgOops = .error (.HttpError 404 bodyMsgOops) ∧
    parse_error_response Unit 404 bodyEnvelope404 =
      .error (.ODataError 404 "404" "Resource not found") :=
  ⟨(parse_error_response_total_and_classified Unit 404 bodyMsgOops (by decide)).2.2 rfl,
    (parse_error_response_total_and_classified Unit 404 bodyEnvelope404 (by decide)).2.1
      ⟨⟨"404", "Resource not found", []⟩⟩ rfl⟩

/-- A 201-byte body whose 200th byte index falls inside a two-byte
UTF-8 character: 199 ASCII letters followed by U+00E9. -/
def panicBody : String := String.mk (List.replicate 199 (Char.ofNat 97) ++ [Char.ofNat 233])

set_option maxRecDepth 4000 in
/-- C9 (code bug): on a success status with a body that fails typed
deserialization, `handle_response` builds its parse-error message with
the byte slice `&body[..body.len().min(200)]`; when byte index 200 is
not a character boundary this slice panics instead of returning a
parse error, modelled here by the `none` result. -/
theorem handle_response_panics_on_non_boundary_truncation :
    handle_response Unit false (fun _ => .error "expected value") 200 panicBody = none := by
  rfl
